import Mathlib

/-!
Shallow embedding of `src/evaluation/evaluate_rag_pipeline.py`.

The module drives an external Evaluator over a dataframe of RAG outputs:
per row it selects the applicable metrics from the modalities present,
invokes the Evaluator, normalizes each per-metric result into a
(grade, reason) pair, records sentinel entries for missing modalities,
aggregates the per-modality grades, and serializes the score table after
each row.

Python values stored in dataframe cells are modelled by `PyVal`; the
pandas dataframe is modelled as an association list from (row index,
column name) to cell value with last-write-wins semantics (`DataFrame`);
Python exceptions are modelled by the `Except PyError` monad; the external
`evaluator.evaluate` call is a function that either returns a list of
(metric name, result) pairs in insertion order or signals an exception;
`json.loads` (Python standard library, external to the repository) is
modelled by a parameter `loads : String → Option PyVal`, where
`Option.none` models a raised `json.JSONDecodeError`.
-/

/-- Python exception kinds that the embedded code can raise. -/
inductive PyError where
  | attributeError
  | keyError
  | valueError
  deriving DecidableEq

/-- Python runtime values as far as the evaluation module manipulates
them: `PyVal.none` is Python `None`, `rat` models a Python float (the
computed means are exact here), `list` and `dict` model the container
shapes a decoded JSON response can take. -/
inductive PyVal where
  | none
  | int (n : Int)
  | rat (q : Rat)
  | str (s : String)
  | list (xs : List PyVal)
  | dict (kvs : List (String × PyVal))

/-- Python truthiness, used by the guards `if not image` and
`if not context`. -/
def pyTruthy : PyVal → Bool
  | PyVal.none => false
  | PyVal.int n => n ≠ 0
  | PyVal.rat q => q ≠ 0
  | PyVal.str s => s ≠ ""
  | PyVal.list xs => !xs.isEmpty
  | PyVal.dict kvs => !kvs.isEmpty

/-- The score table `scores_df`: cells indexed by (row label, column
name). `pandas.DataFrame.at` assignment is modelled by prepending, so an
earlier entry for the same key shadows later ones. -/
structure DataFrame where
  cells : List ((Nat × String) × PyVal)

/-- First entry for a key, if any. -/
def findCell : List ((Nat × String) × PyVal) → Nat × String → Option PyVal
  | [], _ => Option.none
  | (k, v) :: rest, key => if k = key then some v else findCell rest key

/-- `scores_df.at[index, col] = v` (assignment with enlargement). -/
def DataFrame.atSet (df : DataFrame) (index : Nat) (col : String) (v : PyVal) : DataFrame :=
  ⟨((index, col), v) :: df.cells⟩

/-- `scores_df.at[index, col]` as a read; `Option.none` when the cell was
never written (pandas would raise `KeyError` there). -/
def DataFrame.atGet (df : DataFrame) (index : Nat) (col : String) : Option PyVal :=
  findCell df.cells (index, col)

/-- Python `dict` key lookup (keys are unique, so first match suffices). -/
def lookupKey : List (String × PyVal) → String → Option PyVal
  | [], _ => Option.none
  | (k, v) :: rest, key => if k = key then some v else lookupKey rest key

/-- Python `result.get(key, default)`: only mappings expose `.get`; on any
other value the attribute access raises `AttributeError`. -/
def pyGet (v : PyVal) (key : String) (dflt : PyVal) : Except PyError PyVal :=
  match v with
  | PyVal.dict kvs => Except.ok ((lookupKey kvs key).getD dflt)
  | _ => Except.error PyError.attributeError

/-- Truncation of a rational toward zero, as Python `int(float)`. -/
def ratTrunc (q : Rat) : Int :=
  if q < 0 then ⌈q⌉ else ⌊q⌋

/-- Python `int(x)` as used on the modality grades in the aggregation
loop: succeeds on ints, floats and integer-formatted strings, raises on
`None` and on containers. -/
def pyInt : PyVal → Except PyError Int
  | PyVal.int n => Except.ok n
  | PyVal.rat q => Except.ok (ratTrunc q)
  | PyVal.str s =>
      match s.toInt? with
      | some n => Except.ok n
      | Option.none => Except.error PyError.valueError
  | _ => Except.error PyError.valueError

/-- One per-metric result coming back from the Evaluator: either a plain
value, or an object exposing an `invoke` attribute whose `invoke({})`
call yields the carried value (the deferred/callable shape). -/
inductive EvalResult where
  | plain (v : PyVal)
  | deferred (v : PyVal)

/-- The `if hasattr(result, "invoke"): result = result.invoke({})` step. -/
def resolveResult : EvalResult → PyVal
  | EvalResult.plain v => v
  | EvalResult.deferred v => v

/-- The external Evaluator (`EvaluationModule`): its `evaluate` operation
receives the metric list, query, context, image, generated answer and
reference answer, and either returns the per-metric results in order or
raises (any exception, collapsed to `Unit`). -/
structure Evaluator where
  evaluate : List String → PyVal → PyVal → PyVal → PyVal → PyVal →
    Except Unit (List (String × EvalResult))

/-- `METRICS` constant. -/
def METRICS : List String := ["Answer Correctness", "Answer Relevancy"]

/-- `IMAGE_METRICS` constant. -/
def IMAGE_METRICS : List String := ["Image Faithfulness", "Image Context Relevancy"]

/-- `TEXT_METRICS` constant. -/
def TEXT_METRICS : List String := ["Text Faithfulness", "Text Context Relevancy"]

/-- `AGGREGATED_METRICS` constant. -/
def AGGREGATED_METRICS : List String := ["Faithfulness", "Context Relevancy"]

/-- `handle_no_data(index, data_type, scores_df)`: records the sentinel
entries for a modality with no underlying data. -/
def handle_no_data (index : Nat) (data_type : String) (scores_df : DataFrame) : DataFrame :=
  ((((scores_df.atSet index (data_type ++ " Faithfulness grade") PyVal.none).atSet
      index (data_type ++ " Faithfulness reason") (PyVal.str ("No " ++ data_type ++ " provided"))).atSet
      index (data_type ++ " Context Relevancy grade") PyVal.none).atSet
      index (data_type ++ " Context Relevancy reason") (PyVal.str ("No " ++ data_type ++ " provided")))

/-- Body of the per-metric loop in `evaluate_row`: resolve a deferred
result, decode a string result (substituting the Invalid-format stub when
`json.loads` raises), extract grade and reason with their defaults, and
write both cells. Raises when the resolved result is neither a string nor
a mapping (attribute access `.get` on it fails). -/
def writeMetricResult (loads : String → Option PyVal) (index : Nat) (df : DataFrame)
    (entry : String × EvalResult) : Except PyError DataFrame :=
  let result₀ := resolveResult entry.2
  let result :=
    match result₀ with
    | PyVal.str s =>
        match loads s with
        | some v => v
        | Option.none => PyVal.dict [("grade", PyVal.int 0), ("reason", PyVal.str "Invalid format")]
    | v => v
  match pyGet result "grade" (PyVal.int 0), pyGet result "reason" (PyVal.str "No evaluation provided") with
  | Except.ok grade, Except.ok reason =>
      Except.ok ((df.atSet index (entry.1 ++ " grade") grade).atSet
        index (entry.1 ++ " reason") reason)
  | Except.error e, _ => Except.error e
  | _, Except.error e => Except.error e

/-- The `for metric_name, result in results.items()` loop. -/
def writeAll (loads : String → Option PyVal) (index : Nat) :
    List (String × EvalResult) → DataFrame → Except PyError DataFrame
  | [], df => Except.ok df
  | entry :: rest, df =>
      match writeMetricResult loads index df entry with
      | Except.ok df₂ => writeAll loads index rest df₂
      | Except.error e => Except.error e

/-- `evaluate_row(metrics, index, context, image, user_query,
generated_answer, reference_answer, evaluator, scores_df)`. The bare
`except:` around the Evaluator call swallows every exception and returns
`None` (modelled as `Except.ok Option.none`); exceptions raised later in
the normalization loop are not caught. -/
def evaluate_row (loads : String → Option PyVal) (metrics : List String) (index : Nat)
    (context image user_query generated_answer reference_answer : PyVal)
    (evaluator : Evaluator) (scores_df : DataFrame) : Except PyError (Option DataFrame) :=
  match evaluator.evaluate metrics user_query context image generated_answer reference_answer with
  | Except.error _ => Except.ok Option.none
  | Except.ok results =>
      match writeAll loads index results scores_df with
      | Except.ok df => Except.ok (some df)
      | Except.error e => Except.error e

/-- Line 103: `image = input_df["image"][index] if input_df["image"][index] else []`. -/
def imageOrEmpty (image : PyVal) : PyVal :=
  if pyTruthy image then image else PyVal.list []

/-- The metric list built at lines 106-114: base metrics always; image
metrics appended when the (already replaced) image is truthy; text
metrics appended when the context is truthy. -/
def metricsFor (image context : PyVal) : List String :=
  let afterImage := if pyTruthy image then METRICS ++ IMAGE_METRICS else METRICS
  if pyTruthy context then afterImage ++ TEXT_METRICS else afterImage

/-- The `handle_no_data` calls at lines 107-112: one per absent modality,
branching on the same truthiness tests as the metric list. -/
def scoresAfterMissing (index : Nat) (image context : PyVal) (scores_df : DataFrame) : DataFrame :=
  let df₁ := if pyTruthy image then scores_df else handle_no_data index "Image" scores_df
  if pyTruthy context then df₁ else handle_no_data index "Text" df₁

/-- One turn of the `for metric in AGGREGATED_METRICS` loop (lines
118-131): read the two modality grades, replace `None` by -1, convert
both with `int(...)`, and store their two-element mean as a float. -/
def aggregateOne (index : Nat) (scores_df : DataFrame) (metric : String) : Except PyError DataFrame :=
  match scores_df.atGet index ("Image " ++ metric ++ " grade"),
        scores_df.atGet index ("Text " ++ metric ++ " grade") with
  | some img₀, some text₀ =>
      let img := match img₀ with | PyVal.none => PyVal.int (-1) | v => v
      let text := match text₀ with | PyVal.none => PyVal.int (-1) | v => v
      match pyInt img, pyInt text with
      | Except.ok a, Except.ok b =>
          Except.ok (scores_df.atSet index (metric ++ " grade")
            (PyVal.rat (((a : Rat) + (b : Rat)) / 2)))
      | Except.error e, _ => Except.error e
      | _, Except.error e => Except.error e
  | _, _ => Except.error PyError.keyError

/-- The whole aggregation loop over `AGGREGATED_METRICS`. -/
def aggregateRow (index : Nat) (scores_df : DataFrame) : Except PyError DataFrame :=
  match aggregateOne index scores_df "Faithfulness" with
  | Except.ok df₁ => aggregateOne index df₁ "Context Relevancy"
  | Except.error e => Except.error e

/-- One input row of `input_df`. -/
structure RowInput where
  user_query : PyVal
  reference_answer : PyVal
  generated_answer : PyVal
  context : PyVal
  image : PyVal

/-- The body of the `for index, row in input_df.iterrows()` loop, up to
but not including the `to_json` call: modality handling, `evaluate_row`,
and the aggregation loop. When `evaluate_row` returned `None` (Evaluator
exception), the aggregation loop dereferences `scores_df.at` on `None`,
which raises `AttributeError`. -/
def processRow (loads : String → Option PyVal) (evaluator : Evaluator) (index : Nat)
    (row : RowInput) (scores_df : DataFrame) : Except PyError DataFrame :=
  let image := imageOrEmpty row.image
  let metrics := metricsFor image row.context
  let scores₁ := scoresAfterMissing index image row.context scores_df
  match evaluate_row loads metrics index row.context image row.user_query
      row.generated_answer row.reference_answer evaluator scores₁ with
  | Except.error e => Except.error e
  | Except.ok Option.none => Except.error PyError.attributeError
  | Except.ok (some scores₂) => aggregateRow index scores₂

/-- The row loop of `evaluate_dataframe`. The first component is the
sequence of snapshots written by `scores_df.to_json(output_file, ...)`,
in order (each write replaces the file, so the file on disk after any
prefix of the run is the last snapshot of that prefix); the second is the
returned table, or the uncaught exception that terminated the run. -/
def runRows (loads : String → Option PyVal) (evaluator : Evaluator) :
    List RowInput → Nat → DataFrame → List DataFrame →
    List DataFrame × Except PyError DataFrame
  | [], _, df, log => (log.reverse, Except.ok df)
  | row :: rest, index, df, log =>
      match processRow loads evaluator index row df with
      | Except.error e => (log.reverse, Except.error e)
      | Except.ok df₂ => runRows loads evaluator rest (index + 1) df₂ (df₂ :: log)

/-- `evaluate_dataframe(input_df, evaluator, output_file)`: rows are
processed in order starting from index 0 on an initially empty score
table. -/
def evaluate_dataframe (loads : String → Option PyVal) (evaluator : Evaluator)
    (input_df : List RowInput) : List DataFrame × Except PyError DataFrame :=
  runRows loads evaluator input_df 0 ⟨[]⟩ []

/-! ### Basic lemmas about the table model -/

/-- Reading after a write: the new value on the written key, the old
table elsewhere. -/
theorem atGet_atSet (df : DataFrame) (i : Nat) (c : String) (v : PyVal) (j : Nat) (d : String) :
    (df.atSet i c v).atGet j d = if (i, c) = (j, d) then some v else df.atGet j d := by
  simp [DataFrame.atSet, DataFrame.atGet, findCell]

/-- Reading back the cell just written. -/
theorem atGet_atSet_self (df : DataFrame) (i : Nat) (c : String) (v : PyVal) :
    (df.atSet i c v).atGet i c = some v := by
  simp [atGet_atSet]

/-- A write to a different column leaves a read unchanged. -/
theorem atGet_atSet_ne {c d : String} (h : c ≠ d) (df : DataFrame) (i j : Nat) (v : PyVal) :
    (df.atSet i c v).atGet j d = df.atGet j d := by
  rw [atGet_atSet]
  exact if_neg (fun heq => h (congrArg Prod.snd heq))

/-- Two strings with a common prefix and suffixes of different lengths
differ. -/
theorem append_ne_right {a b : String} (l : String) (h : a.length ≠ b.length) :
    l ++ a ≠ l ++ b := by
  intro heq
  have h₂ := congrArg String.length heq
  rw [String.length_append, String.length_append] at h₂
  exact h (Nat.add_left_cancel h₂)

/-- The image replacement at line 103 does not change truthiness. -/
theorem pyTruthy_imageOrEmpty (v : PyVal) : pyTruthy (imageOrEmpty v) = pyTruthy v := by
  unfold imageOrEmpty
  by_cases h : pyTruthy v
  · rw [if_pos h]
  · rw [if_neg h]
    rw [Bool.not_eq_true] at h
    rw [h]
    rfl

/-! ### The aggregation step on a populated row -/

/-- A modality grade cell: either the sentinel `None` written by
`handle_no_data`, or an integer grade written by `evaluate_row`. -/
def gradeCell : Option Int → PyVal
  | Option.none => PyVal.none
  | some n => PyVal.int n

/-- The -1 substitution of the aggregation loop. -/
def sentinel (g : Option Int) : Int := g.getD (-1)

/-- The fixed two-way mean computed by the aggregation loop. -/
def mean2 (a b : Option Int) : Rat := ((sentinel a : Rat) + (sentinel b : Rat)) / 2

/-- On a row whose two modality grade cells are populated (integer or
`None`), one aggregation turn writes exactly the two-way mean with the
-1 substitution. -/
theorem aggregateOne_eq (index : Nat) (df : DataFrame) (metric : String) (gI gT : Option Int)
    (hI : df.atGet index ("Image " ++ metric ++ " grade") = some (gradeCell gI))
    (hT : df.atGet index ("Text " ++ metric ++ " grade") = some (gradeCell gT)) :
    aggregateOne index df metric =
      Except.ok (df.atSet index (metric ++ " grade") (PyVal.rat (mean2 gI gT))) := by
  cases gI <;> cases gT <;>
    simp [aggregateOne, hI, hT, gradeCell, mean2, sentinel, pyInt]

/-- The whole aggregation loop on a row with all four modality grade
cells populated. -/
theorem aggregateRow_eq (index : Nat) (df : DataFrame) (gIF gTF gIC gTC : Option Int)
    (h₁ : df.atGet index "Image Faithfulness grade" = some (gradeCell gIF))
    (h₂ : df.atGet index "Text Faithfulness grade" = some (gradeCell gTF))
    (h₃ : df.atGet index "Image Context Relevancy grade" = some (gradeCell gIC))
    (h₄ : df.atGet index "Text Context Relevancy grade" = some (gradeCell gTC)) :
    aggregateRow index df =
      Except.ok ((df.atSet index "Faithfulness grade" (PyVal.rat (mean2 gIF gTF))).atSet
        index "Context Relevancy grade" (PyVal.rat (mean2 gIC gTC))) := by
  have e₁ := aggregateOne_eq index df "Faithfulness" gIF gTF h₁ h₂
  have h₃' : (df.atSet index "Faithfulness grade" (PyVal.rat (mean2 gIF gTF))).atGet
      index "Image Context Relevancy grade" = some (gradeCell gIC) := by
    rw [atGet_atSet_ne (by decide)]; exact h₃
  have h₄' : (df.atSet index "Faithfulness grade" (PyVal.rat (mean2 gIF gTF))).atGet
      index "Text Context Relevancy grade" = some (gradeCell gTC) := by
    rw [atGet_atSet_ne (by decide)]; exact h₄
  have e₂ := aggregateOne_eq index _ "Context Relevancy" gIC gTC h₃' h₄'
  simp [aggregateRow, e₁, e₂]

/-! ### Claims about the Aggregator -/

/-- C2: for each aggregate category (Faithfulness, Context Relevancy),
the aggregate grade equals the arithmetic mean of exactly two values, the
Image-prefixed and the Text-prefixed grade, with -1 substituted for any
grade that is absent; in particular image grade 3 with text grade absent
yields aggregate mean(3, -1) = 1. -/
theorem aggregate_grade_is_fixed_two_way_mean (index : Nat) (df : DataFrame)
    (gIF gTF gIC gTC : Option Int)
    (h₁ : df.atGet index "Image Faithfulness grade" = some (gradeCell gIF))
    (h₂ : df.atGet index "Text Faithfulness grade" = some (gradeCell gTF))
    (h₃ : df.atGet index "Image Context Relevancy grade" = some (gradeCell gIC))
    (h₄ : df.atGet index "Text Context Relevancy grade" = some (gradeCell gTC)) :
    (∃ df₂, aggregateRow index df = Except.ok df₂ ∧
      df₂.atGet index "Faithfulness grade" = some (PyVal.rat (mean2 gIF gTF)) ∧
      df₂.atGet index "Context Relevancy grade" = some (PyVal.rat (mean2 gIC gTC))) ∧
    mean2 (some 3) Option.none = 1 := by
  refine ⟨⟨_, aggregateRow_eq index df gIF gTF gIC gTC h₁ h₂ h₃ h₄, ?_, ?_⟩, ?_⟩
  · rw [atGet_atSet_ne (by decide), atGet_atSet_self]
  · rw [atGet_atSet_self]
  · norm_num [mean2, sentinel]

/-- A concrete populated row used to instantiate the aggregation claims:
image Faithfulness 3, text Faithfulness absent, image Context Relevancy
2, text Context Relevancy 4. -/
def sampleAggRow : DataFrame :=
  ⟨[((0, "Image Faithfulness grade"), PyVal.int 3),
    ((0, "Text Faithfulness grade"), PyVal.none),
    ((0, "Image Context Relevancy grade"), PyVal.int 2),
    ((0, "Text Context Relevancy grade"), PyVal.int 4)]⟩

/-- Witness for C2 at a concrete row. -/
theorem aggregate_grade_is_fixed_two_way_mean_witness :
    (∃ df₂, aggregateRow 0 sampleAggRow = Except.ok df₂ ∧
      df₂.atGet 0 "Faithfulness grade" = some (PyVal.rat (mean2 (some 3) Option.none)) ∧
      df₂.atGet 0 "Context Relevancy grade" = some (PyVal.rat (mean2 (some 2) (some 4)))) ∧
    mean2 (some 3) Option.none = 1 :=
  aggregate_grade_is_fixed_two_way_mean 0 sampleAggRow (some 3) Option.none (some 2) (some 4)
    rfl rfl rfl rfl

/-- C10: the Aggregator is idempotent on a populated row: the first run
does not modify the four modality grade cells it reads, and a second run
writes the same aggregate values as the first. -/
theorem aggregator_idempotent (index : Nat) (df : DataFrame)
    (gIF gTF gIC gTC : Option Int)
    (h₁ : df.atGet index "Image Faithfulness grade" = some (gradeCell gIF))
    (h₂ : df.atGet index "Text Faithfulness grade" = some (gradeCell gTF))
    (h₃ : df.atGet index "Image Context Relevancy grade" = some (gradeCell gIC))
    (h₄ : df.atGet index "Text Context Relevancy grade" = some (gradeCell gTC)) :
    ∃ df₂ df₃,
      aggregateRow index df = Except.ok df₂ ∧
      aggregateRow index df₂ = Except.ok df₃ ∧
      df₂.atGet index "Image Faithfulness grade" = df.atGet index "Image Faithfulness grade" ∧
      df₂.atGet index "Text Faithfulness grade" = df.atGet index "Text Faithfulness grade" ∧
      df₂.atGet index "Image Context Relevancy grade" = df.atGet index "Image Context Relevancy grade" ∧
      df₂.atGet index "Text Context Relevancy grade" = df.atGet index "Text Context Relevancy grade" ∧
      df₃.atGet index "Faithfulness grade" = df₂.atGet index "Faithfulness grade" ∧
      df₃.atGet index "Context Relevancy grade" = df₂.atGet index "Context Relevancy grade" := by
  have e₁ := aggregateRow_eq index df gIF gTF gIC gTC h₁ h₂ h₃ h₄
  have p₁ : ((df.atSet index "Faithfulness grade" (PyVal.rat (mean2 gIF gTF))).atSet
      index "Context Relevancy grade" (PyVal.rat (mean2 gIC gTC))).atGet
      index "Image Faithfulness grade" = df.atGet index "Image Faithfulness grade" := by
    rw [atGet_atSet_ne (by decide), atGet_atSet_ne (by decide)]
  have p₂ : ((df.atSet index "Faithfulness grade" (PyVal.rat (mean2 gIF gTF))).atSet
      index "Context Relevancy grade" (PyVal.rat (mean2 gIC gTC))).atGet
      index "Text Faithfulness grade" = df.atGet index "Text Faithfulness grade" := by
    rw [atGet_atSet_ne (by decide), atGet_atSet_ne (by decide)]
  have p₃ : ((df.atSet index "Faithfulness grade" (PyVal.rat (mean2 gIF gTF))).atSet
      index "Context Relevancy grade" (PyVal.rat (mean2 gIC gTC))).atGet
      index "Image Context Relevancy grade" = df.atGet index "Image Context Relevancy grade" := by
    rw [atGet_atSet_ne (by decide), atGet_atSet_ne (by decide)]
  have p₄ : ((df.atSet index "Faithfulness grade" (PyVal.rat (mean2 gIF gTF))).atSet
      index "Context Relevancy grade" (PyVal.rat (mean2 gIC gTC))).atGet
      index "Text Context Relevancy grade" = df.atGet index "Text Context Relevancy grade" := by
    rw [atGet_atSet_ne (by decide), atGet_atSet_ne (by decide)]
  have e₂ := aggregateRow_eq index
    ((df.atSet index "Faithfulness grade" (PyVal.rat (mean2 gIF gTF))).atSet
      index "Context Relevancy grade" (PyVal.rat (mean2 gIC gTC)))
    gIF gTF gIC gTC (p₁.trans h₁) (p₂.trans h₂) (p₃.trans h₃) (p₄.trans h₄)
  refine ⟨_, _, e₁, e₂, p₁, p₂, p₃, p₄, ?_, ?_⟩
  · rw [atGet_atSet_ne (by decide), atGet_atSet_self,
      atGet_atSet_ne (by decide), atGet_atSet_self]
  · rw [atGet_atSet_self, atGet_atSet_self]

/-- Witness for C10 at a concrete row. -/
theorem aggregator_idempotent_witness :
    ∃ df₂ df₃,
      aggregateRow 0 sampleAggRow = Except.ok df₂ ∧
      aggregateRow 0 df₂ = Except.ok df₃ ∧
      df₂.atGet 0 "Image Faithfulness grade" = sampleAggRow.atGet 0 "Image Faithfulness grade" ∧
      df₂.atGet 0 "Text Faithfulness grade" = sampleAggRow.atGet 0 "Text Faithfulness grade" ∧
      df₂.atGet 0 "Image Context Relevancy grade" = sampleAggRow.atGet 0 "Image Context Relevancy grade" ∧
      df₂.atGet 0 "Text Context Relevancy grade" = sampleAggRow.atGet 0 "Text Context Relevancy grade" ∧
      df₃.atGet 0 "Faithfulness grade" = df₂.atGet 0 "Faithfulness grade" ∧
      df₃.atGet 0 "Context Relevancy grade" = df₂.atGet 0 "Context Relevancy grade" :=
  aggregator_idempotent 0 sampleAggRow (some 3) Option.none (some 2) (some 4) rfl rfl rfl rfl

/-! ### Claims about metric selection and the missing-modality handler -/

/-- Membership in the metric list built at lines 106-114. -/
theorem mem_metricsFor (image context : PyVal) (m : String) :
    m ∈ metricsFor image context ↔
      (m ∈ METRICS ∨ (pyTruthy image = true ∧ m ∈ IMAGE_METRICS) ∨
        (pyTruthy context = true ∧ m ∈ TEXT_METRICS)) := by
  unfold metricsFor
  by_cases hi : pyTruthy image <;> by_cases hc : pyTruthy context <;>
    simp [hi, hc, List.mem_append]

/-- C4: the metric set passed to the Evaluator consists of the two base
metrics always, the image metrics exactly when the image field is truthy,
and the text metrics exactly when the context field is truthy; with both
modalities present exactly 6 metrics are evaluated. (`imageOrEmpty` is
the replacement of a falsy image by `[]` at line 103, applied before the
metric list is built.) -/
theorem metric_set_matches_modalities (image context : PyVal) :
    (∀ m, m ∈ metricsFor (imageOrEmpty image) context ↔
      (m ∈ METRICS ∨ (pyTruthy image = true ∧ m ∈ IMAGE_METRICS) ∨
        (pyTruthy context = true ∧ m ∈ TEXT_METRICS))) ∧
    (pyTruthy image = true → pyTruthy context = true →
      (metricsFor (imageOrEmpty image) context).length = 6) := by
  constructor
  · intro m
    rw [mem_metricsFor, pyTruthy_imageOrEmpty]
  · intro hi hc
    unfold metricsFor
    rw [pyTruthy_imageOrEmpty, hi, hc]
    rfl

/-- Witness for C4: with both modalities present the list has the six
metrics, and the image metrics are among them. -/
theorem metric_set_matches_modalities_witness :
    ("Image Faithfulness" ∈ metricsFor (imageOrEmpty (PyVal.str "img")) (PyVal.str "ctx")) ∧
    (metricsFor (imageOrEmpty (PyVal.str "img")) (PyVal.str "ctx")).length = 6 := by
  have h := metric_set_matches_modalities (PyVal.str "img") (PyVal.str "ctx")
  exact ⟨(h.1 "Image Faithfulness").mpr (Or.inr (Or.inl ⟨rfl, by decide⟩)),
    h.2 rfl rfl⟩

/-- C5: for an absent modality, `handle_no_data` writes the absent
sentinel `None` (not zero) into both grade cells and the string
No-modality-provided into both reason cells, and the metric list never
contains that modality's metrics, so the Evaluator is not invoked for
them. -/
theorem handle_no_data_sentinel (index : Nat) (label : String) (df : DataFrame)
    (image context : PyVal) :
    ((handle_no_data index label df).atGet index (label ++ " Faithfulness grade") =
      some PyVal.none) ∧
    ((handle_no_data index label df).atGet index (label ++ " Context Relevancy grade") =
      some PyVal.none) ∧
    ((handle_no_data index label df).atGet index (label ++ " Faithfulness reason") =
      some (PyVal.str ("No " ++ label ++ " provided"))) ∧
    ((handle_no_data index label df).atGet index (label ++ " Context Relevancy reason") =
      some (PyVal.str ("No " ++ label ++ " provided"))) ∧
    PyVal.none ≠ PyVal.int 0 ∧
    (pyTruthy image = false → ∀ m ∈ IMAGE_METRICS, m ∉ metricsFor (imageOrEmpty image) context) ∧
    (pyTruthy context = false → ∀ m ∈ TEXT_METRICS, m ∉ metricsFor (imageOrEmpty image) context) := by
  refine ⟨?_, ?_, ?_, ?_, ?_, ?_, ?_⟩
  · unfold handle_no_data
    rw [atGet_atSet_ne (append_ne_right label (by decide)),
      atGet_atSet_ne (append_ne_right label (by decide)),
      atGet_atSet_ne (append_ne_right label (by decide)), atGet_atSet_self]
  · unfold handle_no_data
    rw [atGet_atSet_ne (append_ne_right label (by decide)), atGet_atSet_self]
  · unfold handle_no_data
    rw [atGet_atSet_ne (append_ne_right label (by decide)),
      atGet_atSet_ne (append_ne_right label (by decide)), atGet_atSet_self]
  · unfold handle_no_data
    rw [atGet_atSet_self]
  · exact fun h => nomatch h
  · intro h m hm hmem
    rw [mem_metricsFor, pyTruthy_imageOrEmpty, h] at hmem
    simp only [Bool.false_eq_true, false_and, false_or] at hmem
    simp only [IMAGE_METRICS, List.mem_cons, List.not_mem_nil, or_false] at hm
    rcases hmem with hmem | ⟨-, hmem⟩ <;> rcases hm with rfl | rfl <;>
      revert hmem <;> decide
  · intro h m hm hmem
    rw [mem_metricsFor, pyTruthy_imageOrEmpty, h] at hmem
    simp only [Bool.false_eq_true, false_and, or_false] at hmem
    simp only [TEXT_METRICS, List.mem_cons, List.not_mem_nil, or_false] at hm
    rcases hmem with hmem | ⟨-, hmem⟩ <;> rcases hm with rfl | rfl <;>
      revert hmem <;> decide

/-- Witness for C5 at row 0, label Image, with both modalities absent. -/
theorem handle_no_data_sentinel_witness :
    ((handle_no_data 0 "Image" ⟨[]⟩).atGet 0 ("Image" ++ " Faithfulness grade") =
      some PyVal.none) ∧
    ((handle_no_data 0 "Image" ⟨[]⟩).atGet 0 ("Image" ++ " Faithfulness reason") =
      some (PyVal.str ("No " ++ "Image" ++ " provided"))) ∧
    ("Image Faithfulness" ∉ metricsFor (imageOrEmpty PyVal.none) (PyVal.str "")) := by
  have h := handle_no_data_sentinel 0 "Image" ⟨[]⟩ PyVal.none (PyVal.str "")
  exact ⟨h.1, h.2.2.1, h.2.2.2.2.2.1 rfl "Image Faithfulness" (by decide)⟩

/-! ### Claims about per-metric result normalization -/

/-- C6: a string result that `json.loads` cannot decode is recorded as
grade 0 with reason Invalid format, and the per-metric loop goes on with
the remaining metrics (the loop-step equation in the second conjunct). -/
theorem unparseable_string_grades_zero (loads : String → Option PyVal) (index : Nat)
    (df : DataFrame) (name s : String) (rest : List (String × EvalResult))
    (h : loads s = Option.none) :
    writeMetricResult loads index df (name, EvalResult.plain (PyVal.str s)) =
      Except.ok ((df.atSet index (name ++ " grade") (PyVal.int 0)).atSet
        index (name ++ " reason") (PyVal.str "Invalid format")) ∧
    writeAll loads index ((name, EvalResult.plain (PyVal.str s)) :: rest) df =
      writeAll loads index rest
        ((df.atSet index (name ++ " grade") (PyVal.int 0)).atSet
          index (name ++ " reason") (PyVal.str "Invalid format")) := by
  have h₁ : writeMetricResult loads index df (name, EvalResult.plain (PyVal.str s)) =
      Except.ok ((df.atSet index (name ++ " grade") (PyVal.int 0)).atSet
        index (name ++ " reason") (PyVal.str "Invalid format")) := by
    simp [writeMetricResult, resolveResult, h, pyGet, lookupKey]
  refine ⟨h₁, ?_⟩
  simp only [writeAll, h₁]

/-- Witness for C6: a failing decode on a concrete string. -/
theorem unparseable_string_grades_zero_witness :
    writeMetricResult (fun _ => Option.none) 0 ⟨[]⟩
        ("Answer Relevancy", EvalResult.plain (PyVal.str "oops")) =
      Except.ok ((DataFrame.atSet ⟨[]⟩ 0 ("Answer Relevancy" ++ " grade") (PyVal.int 0)).atSet
        0 ("Answer Relevancy" ++ " reason") (PyVal.str "Invalid format")) ∧
    writeAll (fun _ => Option.none) 0
        [("Answer Relevancy", EvalResult.plain (PyVal.str "oops"))] ⟨[]⟩ =
      writeAll (fun _ => Option.none) 0 []
        ((DataFrame.atSet ⟨[]⟩ 0 ("Answer Relevancy" ++ " grade") (PyVal.int 0)).atSet
          0 ("Answer Relevancy" ++ " reason") (PyVal.str "Invalid format")) :=
  unparseable_string_grades_zero (fun _ => Option.none) 0 ⟨[]⟩ "Answer Relevancy" "oops" [] rfl

/-- C7: a parsed mapping lacking the grade key is recorded with grade 0,
and one lacking the reason key with reason No evaluation provided; the
empty mapping hits both defaults. -/
theorem missing_fields_default (loads : String → Option PyVal) (index : Nat)
    (df : DataFrame) (name : String) (kvs : List (String × PyVal)) :
    ∃ df₂, writeMetricResult loads index df (name, EvalResult.plain (PyVal.dict kvs)) =
        Except.ok df₂ ∧
      (lookupKey kvs "grade" = Option.none →
        df₂.atGet index (name ++ " grade") = some (PyVal.int 0)) ∧
      (lookupKey kvs "reason" = Option.none →
        df₂.atGet index (name ++ " reason") = some (PyVal.str "No evaluation provided")) := by
  refine ⟨_, rfl, ?_, ?_⟩
  · intro hg
    rw [atGet_atSet_ne (append_ne_right name (by decide)), atGet_atSet_self, hg]
    rfl
  · intro hr
    rw [atGet_atSet_self, hr]
    rfl

/-- Witness for C7: the empty mapping yields both defaults. -/
theorem missing_fields_default_witness :
    ∃ df₂, writeMetricResult (fun _ => Option.none) 0 ⟨[]⟩
        ("Answer Correctness", EvalResult.plain (PyVal.dict [])) = Except.ok df₂ ∧
      df₂.atGet 0 ("Answer Correctness" ++ " grade") = some (PyVal.int 0) ∧
      df₂.atGet 0 ("Answer Correctness" ++ " reason") =
        some (PyVal.str "No evaluation provided") := by
  obtain ⟨df₂, he, hg, hr⟩ :=
    missing_fields_default (fun _ => Option.none) 0 ⟨[]⟩ "Answer Correctness" []
  exact ⟨df₂, he, hg rfl, hr rfl⟩

/-- C9: a result carrying the deferred-resolution capability is resolved
synchronously first, and the resolved value then goes through exactly the
same normalization as a plain value: the two runs of the per-metric loop
body are equal. -/
theorem deferred_result_uniform (loads : String → Option PyVal) (index : Nat)
    (df : DataFrame) (name : String) (v : PyVal) :
    writeMetricResult loads index df (name, EvalResult.deferred v) =
      writeMetricResult loads index df (name, EvalResult.plain v) := rfl

/-! ### Concrete runs: Evaluator-call failure and non-object JSON -/

/-- A decode function under which every string raises. -/
def loadsFail : String → Option PyVal := fun _ => Option.none

/-- A decode function that decodes the string 3 to the JSON number 3 and
fails on everything else (so that string decodes successfully but not to
an object). -/
def loadsNum : String → Option PyVal := fun s =>
  match s with
  | "3" => some (PyVal.int 3)
  | _ => Option.none

/-- An Evaluator whose evaluate call always raises. -/
def failEvaluator : Evaluator := ⟨fun _ _ _ _ _ _ => Except.error ()⟩

/-- An Evaluator that raises exactly on the query string q1 and otherwise
grades every requested metric 1. -/
def flakyEvaluator : Evaluator :=
  ⟨fun metrics query _ _ _ _ =>
    match query with
    | PyVal.str "q1" => Except.error ()
    | _ => Except.ok (metrics.map (fun m =>
        (m, EvalResult.plain (PyVal.dict [("grade", PyVal.int 1), ("reason", PyVal.str "ok")]))))⟩

/-- An Evaluator that answers every requested metric with the string 3:
valid JSON, but not a key-value object. -/
def nonObjectEvaluator : Evaluator :=
  ⟨fun metrics _ _ _ _ _ =>
    Except.ok (metrics.map (fun m => (m, EvalResult.plain (PyVal.str "3"))))⟩

/-- An input row with neither image nor context. -/
def rowNoModal (q : String) : RowInput :=
  ⟨PyVal.str q, PyVal.str "ref", PyVal.str "gen", PyVal.str "", PyVal.none⟩

/-- An input row with both image and context. -/
def rowBothModal (q : String) : RowInput :=
  ⟨PyVal.str q, PyVal.str "ref", PyVal.str "gen", PyVal.str "ctx", PyVal.str "img"⟩

/-- C1 at a failing input: when the Evaluator call raises, `evaluate_row`
itself abandons the row with no metric columns written (it yields Python
`None`), but `evaluate_dataframe` then feeds that `None` to the
aggregation loop, which raises an uncaught `AttributeError`: the whole
dataset run terminates on the first failing example (the second example
is never reached and no snapshot is ever serialized), instead of
continuing with the next example. -/
theorem evaluator_error_terminates_run :
    evaluate_row loadsFail METRICS 0 (PyVal.str "") (PyVal.list []) (PyVal.str "q0")
        (PyVal.str "gen") (PyVal.str "ref") failEvaluator ⟨[]⟩ = Except.ok Option.none ∧
    evaluate_dataframe loadsFail failEvaluator [rowNoModal "q0", rowNoModal "q1"] =
      ([], Except.error PyError.attributeError) := by
  constructor <;> rfl

/-- C3 at a failing input: with an Evaluator that succeeds on the first
example and raises on the second, exactly one snapshot is serialized (the
one after the first example) and the run then terminates with an uncaught
`AttributeError`: the row-failure example is processed without any
serialization of the table, contradicting serialize-after-every-example. -/
theorem snapshot_skipped_on_row_failure :
    (evaluate_dataframe loadsFail flakyEvaluator [rowNoModal "q0", rowNoModal "q1"]).1.length = 1 ∧
    (evaluate_dataframe loadsFail flakyEvaluator [rowNoModal "q0", rowNoModal "q1"]).2 =
      Except.error PyError.attributeError := by
  constructor <;> rfl

/-- C8: an Evaluator response on which the Row Evaluator raises an
unhandled error instead of recovering: the string 3 decodes as valid JSON
but not as a key-value object, so the grade extraction raises
`AttributeError`, which propagates out of `evaluate_row` (only the
JSON-decode failure is caught) and terminates the whole dataset run. -/
theorem non_object_json_aborts_run :
    evaluate_row loadsNum ["Answer Correctness"] 0 (PyVal.str "ctx") (PyVal.str "img")
        (PyVal.str "q") (PyVal.str "gen") (PyVal.str "ref") nonObjectEvaluator ⟨[]⟩ =
      Except.error PyError.attributeError ∧
    evaluate_dataframe loadsNum nonObjectEvaluator [rowBothModal "q"] =
      ([], Except.error PyError.attributeError) := by
  constructor <;> rfl
